import Mathlib

/-!
Verification of agent004_streamlit_app.py (AI Safety Inspection Assistant).

The embedding models the app's core logic:
* `call_openai_chat` — the completion-client wrapper around the external API
  (the external service's behaviour is a parameter `ext`; an exception raised
  by the call is modelled as `Except.error` carrying the description string,
  a successful call as `Except.ok` carrying the generated content);
* `generate_report_from_inspection` — the report composer;
* `analyze_uploaded_file` — the text extractor with a faithful strict UTF-8
  decoder (`utf8Decode`) modelling Python's `bytes.decode("utf-8")`;
* `submit_chat` / `runChats` — the chat-session state machine;
* the manual-entry and report-generator page handlers.

Every operation that may contact the external service returns its result
paired with the list of `ChatRequest`s it sent, so that "performs no
external call" is directly observable.
-/

inductive Role where
  | system : Role
  | user : Role
  | assistant : Role
deriving DecidableEq

structure Message where
  role : Role
  content : String
deriving DecidableEq

/-- The request shape sent to the external completion service:
`{model, ordered messages, temperature, max output length}`. -/
structure ChatRequest where
  model : String
  messages : List Message
  temperature : Rat
  max_tokens : Nat
deriving DecidableEq

/-- Python's `str.strip()`: remove leading and trailing whitespace. -/
def pyStrip (s : String) : String :=
  String.mk (((s.data.dropWhile Char.isWhitespace).reverse.dropWhile
    Char.isWhitespace).reverse)

/-- Python's `str.endswith(suf)`. -/
def pyEndswith (s suf : String) : Bool := suf.data.isSuffixOf s.data

/-- Default for the `model` keyword parameter of `call_openai_chat`. -/
def defaultModel : String := "gpt-4o-mini"

/-- Default for the `temperature` keyword parameter of `call_openai_chat`. -/
def defaultTemperature : Rat := 3 / 10

/-- Embedding of `call_openai_chat(messages, model="gpt-4o-mini", temperature=0.3)`.
`ext` is the behaviour of `openai.ChatCompletion.create` together with the
`response.choices[0].message.content` extraction: `Except.ok c` means the call
returned content `c`, `Except.error e` means some exception with description
`e` was raised inside the `try` block.  The second component records the
requests sent to the external service. -/
def call_openai_chat (ext : ChatRequest → Except String String)
    (messages : List Message) (model : String) (temperature : Rat) :
    String × List ChatRequest :=
  let req : ChatRequest := ChatRequest.mk model messages temperature 1000
  match ext req with
  | Except.ok content => (pyStrip content, [req])
  | Except.error e => ("OpenAI API error: " ++ e, [req])

/-- A call `call_openai_chat(messages)` with both keyword parameters left at
their defaults, as done by every call site in the app. -/
def call_openai_chat_defaults (ext : ChatRequest → Except String String)
    (messages : List Message) : String × List ChatRequest :=
  call_openai_chat ext messages defaultModel defaultTemperature

/-- The fixed system message of `generate_report_from_inspection`. -/
def reportSystemMsg : Message :=
  Message.mk Role.system
    "You are an expert safety inspector. Generate a concise inspection report based on the provided data."

/-- The fixed text preceding the data blob in the user message of
`generate_report_from_inspection`. -/
def reportPreamble : String :=
  "Generate a detailed safety inspection report from the following data:\n"

/-- Embedding of `generate_report_from_inspection(data)`. -/
def generate_report_from_inspection (ext : ChatRequest → Except String String)
    (data : String) : String × List ChatRequest :=
  let user_msg : Message := Message.mk Role.user (reportPreamble ++ data)
  call_openai_chat_defaults ext [reportSystemMsg, user_msg]

/-- Strict UTF-8 decoding of a byte sequence, modelling Python's
`bytes.decode("utf-8")`: rejects stray continuation bytes, overlong
encodings, surrogate code points and values above U+10FFFF; `none` models
the raised `UnicodeDecodeError`. -/
def utf8Decode : List Nat → Option (List Char)
  | [] => some []
  | b :: bs =>
    if b ≤ 0x7F then
      (utf8Decode bs).map (fun cs => Char.ofNat b :: cs)
    else if b ≤ 0xC1 then none
    else if b ≤ 0xDF then
      match bs with
      | b1 :: bs1 =>
        if 0x80 ≤ b1 ∧ b1 ≤ 0xBF then
          (utf8Decode bs1).map (fun cs =>
            Char.ofNat ((b - 0xC0) * 0x40 + (b1 - 0x80)) :: cs)
        else none
      | [] => none
    else if b ≤ 0xEF then
      match bs with
      | b1 :: b2 :: bs2 =>
        if (0x80 ≤ b1 ∧ b1 ≤ 0xBF) ∧ (0x80 ≤ b2 ∧ b2 ≤ 0xBF) ∧
            (b = 0xE0 → 0xA0 ≤ b1) ∧ (b = 0xED → b1 ≤ 0x9F) then
          (utf8Decode bs2).map (fun cs =>
            Char.ofNat ((b - 0xE0) * 0x1000 + (b1 - 0x80) * 0x40 + (b2 - 0x80)) :: cs)
        else none
      | _ => none
    else if b ≤ 0xF4 then
      match bs with
      | b1 :: b2 :: b3 :: bs3 =>
        if (0x80 ≤ b1 ∧ b1 ≤ 0xBF) ∧ (0x80 ≤ b2 ∧ b2 ≤ 0xBF) ∧
            (0x80 ≤ b3 ∧ b3 ≤ 0xBF) ∧
            (b = 0xF0 → 0x90 ≤ b1) ∧ (b = 0xF4 → b1 ≤ 0x8F) then
          (utf8Decode bs3).map (fun cs =>
            Char.ofNat ((b - 0xF0) * 0x40000 + (b1 - 0x80) * 0x1000 +
              (b2 - 0x80) * 0x40 + (b3 - 0x80)) :: cs)
        else none
      | _ => none
    else none

/-- The fixed result string for unsupported file extensions. -/
def unsupportedMsg : String :=
  "File type not supported for text extraction (only .txt or .csv)."

/-- Embedding of `analyze_uploaded_file(file_bytes, filename)`.  Bytes are
naturals below 256.  `Except.error` models the uncaught `UnicodeDecodeError`
propagating to the caller; both the decoded text and the fixed
unsupported-format message are normal `Except.ok` results. -/
def analyze_uploaded_file (file_bytes : List Nat) (filename : String) :
    Except String String :=
  if pyEndswith filename ".txt" || pyEndswith filename ".csv" then
    match utf8Decode file_bytes with
    | some cs => Except.ok (String.mk cs)
    | none => Except.error "UnicodeDecodeError"
  else
    Except.ok unsupportedMsg

/-- The per-session chat state: `st.session_state.chat_history` plus the
pending-input scratch field `st.session_state.user_input`. -/
structure ChatState where
  chat_history : List Message
  user_input : String
deriving DecidableEq

/-- The fixed system message prepended by `submit_chat`. -/
def chatSystemMsg : Message :=
  Message.mk Role.system "You are a helpful safety inspection AI assistant."

/-- Embedding of `submit_chat()`: append the pending input as a user message,
send the fixed system instruction followed by the whole history, append the
response as an assistant message, clear the pending input. -/
def submit_chat (ext : ChatRequest → Except String String) (s : ChatState) :
    ChatState × List ChatRequest :=
  let user_msg := s.user_input
  let hist1 := s.chat_history ++ [Message.mk Role.user user_msg]
  let messages := chatSystemMsg :: hist1
  let rc := call_openai_chat_defaults ext messages
  (ChatState.mk (hist1 ++ [Message.mk Role.assistant rc.fst]) "", rc.snd)

/-- A whole chat session: for each element of `inputs` in order, the user
types it into the pending-input field and submits. -/
def runChats (ext : ChatRequest → Except String String) :
    List String → ChatState → ChatState × List ChatRequest
  | [], s => (s, [])
  | i :: rest, s =>
    let r1 := submit_chat ext (ChatState.mk s.chat_history i)
    let r2 := runChats ext rest r1.fst
    (r2.fst, r1.snd ++ r2.snd)

/-- The user/assistant transcript determined by a list of
(user text, assistant text) pairs. -/
def pairsToMessages : List (String × String) → List Message
  | [] => []
  | p :: rest =>
    Message.mk Role.user p.fst :: Message.mk Role.assistant p.snd ::
      pairsToMessages rest

/-- Outcome of a page handler: a validation error shown via `st.error`, or a
generated report shown via `st.write`. -/
inductive PageOutcome where
  | validationError : String → PageOutcome
  | report : String → PageOutcome
deriving DecidableEq

/-- The validation message of the manual-entry page. -/
def manualEntryErrMsg : String :=
  "Please fill at least Inspector Name and Inspection Location."

/-- The text blob assembled by the manual-entry page (the date is already
rendered as text). -/
def manualEntryBlob (inspector_name location date notes hazards_found
    recommendations : String) : String :=
  "Inspector: " ++ inspector_name ++ "\n" ++
  "Location: " ++ location ++ "\n" ++
  "Date: " ++ date ++ "\n" ++
  "Notes: " ++ notes ++ "\n" ++
  "Hazards Found: " ++ hazards_found ++ "\n" ++
  "Recommendations: " ++ recommendations

/-- Embedding of the "Enter Inspection Details" page's submit handler:
Python's `if not inspector_name or not location` is the emptiness test on the
two strings. -/
def enterInspectionDetails (ext : ChatRequest → Except String String)
    (inspector_name location date notes hazards_found recommendations : String) :
    PageOutcome × List ChatRequest :=
  if inspector_name = "" ∨ location = "" then
    (PageOutcome.validationError manualEntryErrMsg, [])
  else
    let rc := generate_report_from_inspection ext
      (manualEntryBlob inspector_name location date notes hazards_found
        recommendations)
    (PageOutcome.report rc.fst, rc.snd)

/-- The validation message of the "AI Report Generator" page. -/
def reportGenErrMsg : String :=
  "Please enter some text to generate a report."

/-- Embedding of the "AI Report Generator" page's submit handler:
`if not raw_text.strip()` rejects input that is empty after trimming. -/
def aiReportGenerator (ext : ChatRequest → Except String String)
    (raw_text : String) : PageOutcome × List ChatRequest :=
  if pyStrip raw_text = "" then
    (PageOutcome.validationError reportGenErrMsg, [])
  else
    let rc := generate_report_from_inspection ext raw_text
    (PageOutcome.report rc.fst, rc.snd)

/-! ## Helper lemmas -/

theorem call_openai_chat_snd (ext : ChatRequest → Except String String)
    (messages : List Message) (model : String) (temperature : Rat) :
    (call_openai_chat ext messages model temperature).snd =
      [ChatRequest.mk model messages temperature 1000] := by
  cases hx : ext (ChatRequest.mk model messages temperature 1000) <;>
    simp [call_openai_chat, hx]

theorem submit_chat_eq (ext : ChatRequest → Except String String) (s : ChatState) :
    submit_chat ext s =
      (ChatState.mk (s.chat_history ++ [Message.mk Role.user s.user_input,
          Message.mk Role.assistant (call_openai_chat_defaults ext
            (chatSystemMsg :: (s.chat_history ++ [Message.mk Role.user s.user_input]))).fst])
        "",
       [ChatRequest.mk defaultModel
          (chatSystemMsg :: (s.chat_history ++ [Message.mk Role.user s.user_input]))
          defaultTemperature 1000]) := by
  simp [submit_chat, call_openai_chat_defaults, call_openai_chat_snd]

/-! ## Claims -/

/-- C1: for every message list and every behaviour of the external completion
call, `call_openai_chat` never raises to its caller (it is a total function
into `String`): on success it returns the generated text with surrounding
whitespace stripped, and on any failure it returns the human-readable string
embedding the error description. -/
theorem C1_completion_client_never_raises
    (ext : ChatRequest → Except String String) (messages : List Message)
    (model : String) (temperature : Rat) :
    (∀ content,
      ext (ChatRequest.mk model messages temperature 1000) = Except.ok content →
        (call_openai_chat ext messages model temperature).fst = pyStrip content) ∧
    (∀ e,
      ext (ChatRequest.mk model messages temperature 1000) = Except.error e →
        (call_openai_chat ext messages model temperature).fst =
          "OpenAI API error: " ++ e) := by
  constructor
  · intro content hok
    simp [call_openai_chat, hok]
  · intro e herr
    simp [call_openai_chat, herr]

/-- Witness for C1 at a concrete success and a concrete failure. -/
theorem C1_witness :
    (call_openai_chat (fun _ => Except.ok " hello ") [] "gpt-4o-mini"
      (3 / 10)).fst = "hello" ∧
    (call_openai_chat (fun _ => Except.error "Rate limit") [] "gpt-4o-mini"
      (3 / 10)).fst = "OpenAI API error: Rate limit" :=
  ⟨((C1_completion_client_never_raises (fun _ => Except.ok " hello ") []
      "gpt-4o-mini" (3 / 10)).1 " hello " rfl).trans (by decide),
   ((C1_completion_client_never_raises (fun _ => Except.error "Rate limit") []
      "gpt-4o-mini" (3 / 10)).2 "Rate limit" rfl).trans (by decide)⟩

/-- C3: for every input blob, `generate_report_from_inspection` sends exactly
one request consisting of exactly 2 messages — system role first, user role
second, the user message containing the blob verbatim — and returns
exactly what the Completion Client returns on those messages. -/
theorem C3_report_composer_two_messages
    (ext : ChatRequest → Except String String) (data : String) :
    ∃ sysm userm : Message,
      (generate_report_from_inspection ext data).snd =
        [ChatRequest.mk defaultModel [sysm, userm] defaultTemperature 1000] ∧
      sysm.role = Role.system ∧ userm.role = Role.user ∧
      (∃ p, userm.content = p ++ data) ∧
      (generate_report_from_inspection ext data).fst =
        (call_openai_chat ext [sysm, userm] defaultModel defaultTemperature).fst := by
  refine ⟨reportSystemMsg, Message.mk Role.user (reportPreamble ++ data),
    ?_, rfl, rfl, ⟨reportPreamble, rfl⟩, rfl⟩
  simp [generate_report_from_inspection, call_openai_chat_defaults,
    call_openai_chat_snd]

/-- C4: for every byte content that is valid UTF-8 and every filename ending
in `.txt` or `.csv`, `analyze_uploaded_file` returns exactly the UTF-8
decoding of the bytes. -/
theorem C4_extractor_decodes_supported (file_bytes : List Nat)
    (filename : String) (cs : List Char)
    (hext : pyEndswith filename ".txt" = true ∨ pyEndswith filename ".csv" = true)
    (hdec : utf8Decode file_bytes = some cs) :
    analyze_uploaded_file file_bytes filename = Except.ok (String.mk cs) := by
  unfold analyze_uploaded_file
  rcases hext with hx | hx <;> simp [hx, hdec]

/-- Witness for C4: the bytes `[104, 105]` in a `.txt` file decode to "hi". -/
theorem C4_witness :
    analyze_uploaded_file [104, 105] "notes.txt" = Except.ok "hi" :=
  C4_extractor_decodes_supported [104, 105] "notes.txt" ['h', 'i']
    (Or.inl rfl) rfl

/-- C5: for every filename not ending in `.txt` or `.csv`,
`analyze_uploaded_file` returns the fixed unsupported-format message as a
normal (non-error) result, regardless of the byte content. -/
theorem C5_extractor_unsupported (file_bytes : List Nat) (filename : String)
    (h1 : pyEndswith filename ".txt" = false)
    (h2 : pyEndswith filename ".csv" = false) :
    analyze_uploaded_file file_bytes filename = Except.ok unsupportedMsg := by
  unfold analyze_uploaded_file
  simp [h1, h2]

/-- Witness for C5: a `.pdf` filename with arbitrary bytes. -/
theorem C5_witness :
    analyze_uploaded_file [0, 1, 255] "scan.pdf" = Except.ok unsupportedMsg :=
  C5_extractor_unsupported [0, 1, 255] "scan.pdf" rfl rfl

/-- C8: for every filename ending in `.txt` or `.csv` whose bytes are not
valid UTF-8, the decoding failure propagates to the caller as a generic
decoding error, never as an `ok` result string. -/
theorem C8_extractor_decode_failure (file_bytes : List Nat) (filename : String)
    (hext : pyEndswith filename ".txt" = true ∨ pyEndswith filename ".csv" = true)
    (hdec : utf8Decode file_bytes = none) :
    analyze_uploaded_file file_bytes filename = Except.error "UnicodeDecodeError" ∧
    ∀ s, analyze_uploaded_file file_bytes filename ≠ Except.ok s := by
  have hmain : analyze_uploaded_file file_bytes filename =
      Except.error "UnicodeDecodeError" := by
    unfold analyze_uploaded_file
    rcases hext with hx | hx <;> simp [hx, hdec]
  refine ⟨hmain, fun s hs => ?_⟩
  rw [hmain] at hs
  exact Except.noConfusion hs

/-- Witness for C8: the lone byte `0xFF` is invalid UTF-8. -/
theorem C8_witness :
    analyze_uploaded_file [255] "data.csv" = Except.error "UnicodeDecodeError" :=
  (C8_extractor_decode_failure [255] "data.csv" (Or.inr rfl) rfl).1

/-- C6: whenever the external call fails during a chat submission, the string
returned by the Completion Client embeds the literal failure description and
is still appended to the conversation as an assistant turn, not dropped. -/
theorem C6_error_string_stored_as_assistant
    (ext : ChatRequest → Except String String) (s : ChatState) (e : String)
    (herr : ext (ChatRequest.mk defaultModel
        (chatSystemMsg :: (s.chat_history ++ [Message.mk Role.user s.user_input]))
        defaultTemperature 1000) = Except.error e) :
    (submit_chat ext s).fst.chat_history =
      s.chat_history ++ [Message.mk Role.user s.user_input,
        Message.mk Role.assistant ("OpenAI API error: " ++ e)] := by
  simp [submit_chat, call_openai_chat_defaults, call_openai_chat, herr]

/-- Witness for C6: a failing external call during one submission. -/
theorem C6_witness :
    (submit_chat (fun _ => Except.error "boom")
        (ChatState.mk [] "hello")).fst.chat_history =
      [Message.mk Role.user "hello",
        Message.mk Role.assistant "OpenAI API error: boom"] :=
  (C6_error_string_stored_as_assistant (fun _ => Except.error "boom")
    (ChatState.mk [] "hello") "boom" rfl).trans (by decide)

/-- C7: a manual-entry submission with empty inspector name or empty location
produces the validation error and performs no external call; otherwise the
external call is made (exactly one request, for the assembled blob). -/
theorem C7_manual_entry_validation
    (ext : ChatRequest → Except String String)
    (inspector_name location date notes hazards_found recommendations : String) :
    ((inspector_name = "" ∨ location = "") →
      enterInspectionDetails ext inspector_name location date notes
          hazards_found recommendations =
        (PageOutcome.validationError manualEntryErrMsg, [])) ∧
    (inspector_name ≠ "" → location ≠ "" →
      (enterInspectionDetails ext inspector_name location date notes
          hazards_found recommendations).snd =
        [ChatRequest.mk defaultModel
          [reportSystemMsg, Message.mk Role.user (reportPreamble ++
            manualEntryBlob inspector_name location date notes hazards_found
              recommendations)]
          defaultTemperature 1000]) := by
  constructor
  · intro hempty
    simp [enterInspectionDetails, hempty]
  · intro hn hl
    simp [enterInspectionDetails, hn, hl, generate_report_from_inspection,
      call_openai_chat_defaults, call_openai_chat_snd]

/-- Witness for C7: an empty inspector name is rejected without any request;
filled-in name and location produce exactly the report request. -/
theorem C7_witness :
    enterInspectionDetails (fun _ => Except.ok "ok") "" "Site A" "2025-01-01"
        "n" "hz" "rec" =
      (PageOutcome.validationError manualEntryErrMsg, []) ∧
    (enterInspectionDetails (fun _ => Except.ok "ok") "Ann" "Site A"
        "2025-01-01" "n" "hz" "rec").snd =
      [ChatRequest.mk defaultModel
        [reportSystemMsg, Message.mk Role.user (reportPreamble ++
          manualEntryBlob "Ann" "Site A" "2025-01-01" "n" "hz" "rec")]
        defaultTemperature 1000] :=
  ⟨(C7_manual_entry_validation (fun _ => Except.ok "ok") "" "Site A"
      "2025-01-01" "n" "hz" "rec").1 (Or.inl rfl),
   (C7_manual_entry_validation (fun _ => Except.ok "ok") "Ann" "Site A"
      "2025-01-01" "n" "hz" "rec").2 (by decide) (by decide)⟩

/-- C9 counterexample: the response-length cap is not a tunable parameter of
`call_openai_chat` — no choice of arguments or external behaviour can produce
a request whose `max_tokens` differs from the hard-coded 1000. -/
theorem C9_counterexample :
    ¬ ∃ (ext : ChatRequest → Except String String) (messages : List Message)
        (model : String) (temperature : Rat) (r : ChatRequest),
        r ∈ (call_openai_chat ext messages model temperature).snd ∧
        r.max_tokens ≠ 1000 := by
  rintro ⟨ext, messages, model, temperature, r, hr, hne⟩
  rw [call_openai_chat_snd] at hr
  simp only [List.mem_singleton] at hr
  exact hne (by rw [hr])

/-- C9 (amended): `call_openai_chat` accepts the model identifier and the
sampling temperature as tunable parameters, with defaults `gpt-4o-mini` and
0.3 respectively; the response-length cap is fixed at 1000 in every request
it sends and is not caller-tunable. -/
theorem C9_amended_tunable_parameters
    (ext : ChatRequest → Except String String) (messages : List Message)
    (model : String) (temperature : Rat) :
    call_openai_chat_defaults ext messages =
      call_openai_chat ext messages "gpt-4o-mini" (3 / 10) ∧
    (call_openai_chat ext messages model temperature).snd =
      [ChatRequest.mk model messages temperature 1000] :=
  ⟨rfl, call_openai_chat_snd ext messages model temperature⟩

/-- C10: chat submission performs no non-emptiness validation — submitting
the empty string still appends an empty user message and still sends one
request — unlike the report-generator and manual-entry views, which reject
empty input without any external call. -/
theorem C10_chat_no_empty_validation
    (ext : ChatRequest → Except String String) (hist : List Message) :
    (submit_chat ext (ChatState.mk hist "")).fst.chat_history =
      hist ++ [Message.mk Role.user "",
        Message.mk Role.assistant (call_openai_chat_defaults ext
          (chatSystemMsg :: (hist ++ [Message.mk Role.user ""]))).fst] ∧
    (submit_chat ext (ChatState.mk hist "")).snd =
      [ChatRequest.mk defaultModel
        (chatSystemMsg :: (hist ++ [Message.mk Role.user ""]))
        defaultTemperature 1000] ∧
    aiReportGenerator ext "" = (PageOutcome.validationError reportGenErrMsg, []) ∧
    enterInspectionDetails ext "" "" "" "" "" "" =
      (PageOutcome.validationError manualEntryErrMsg, []) := by
  refine ⟨?_, ?_, ?_, ?_⟩
  · simp [submit_chat_eq]
  · simp [submit_chat_eq]
  · simp [aiReportGenerator, pyStrip]
  · simp [enterInspectionDetails]

theorem pairsToMessages_append (ps qs : List (String × String)) :
    pairsToMessages (ps ++ qs) = pairsToMessages ps ++ pairsToMessages qs := by
  induction ps with
  | nil => rfl
  | cons p ps ih => simp [pairsToMessages, ih]

theorem pairsToMessages_length (ps : List (String × String)) :
    (pairsToMessages ps).length = 2 * ps.length := by
  induction ps with
  | nil => rfl
  | cons p ps ih => simp [pairsToMessages, ih]; omega

theorem runChats_transcript (ext : ChatRequest → Except String String)
    (inputs : List String) (s : ChatState) :
    ∃ replies : List String, replies.length = inputs.length ∧
      (runChats ext inputs s).fst.chat_history =
        s.chat_history ++ pairsToMessages (inputs.zip replies) ∧
      (runChats ext inputs s).fst.user_input =
        (if inputs = [] then s.user_input else "") := by
  induction inputs generalizing s with
  | nil => exact ⟨[], rfl, by simp [runChats, pairsToMessages], by simp [runChats]⟩
  | cons i rest ih =>
    obtain ⟨replies, hlen, hhist, huser⟩ :=
      ih (submit_chat ext (ChatState.mk s.chat_history i)).fst
    refine ⟨(call_openai_chat_defaults ext
        (chatSystemMsg :: (s.chat_history ++ [Message.mk Role.user i]))).fst ::
        replies, by simp [hlen], ?_, ?_⟩
    · show (runChats ext rest
          (submit_chat ext (ChatState.mk s.chat_history i)).fst).fst.chat_history = _
      rw [hhist, submit_chat_eq]
      simp [pairsToMessages, List.zip]
    · show (runChats ext rest
          (submit_chat ext (ChatState.mk s.chat_history i)).fst).fst.user_input = _
      rw [huser, submit_chat_eq]
      rcases rest with _ | _ <;> simp

/-- C2: each chat submission appends the submitted text as a user message,
sends the fixed system instruction followed by the full conversation so far,
appends the returned text as an assistant message and clears the
pending-input field; consequently after N submissions the conversation is
exactly the user/assistant interleaving of the N inputs with N replies —
2N messages, alternating user then assistant, in submission order. -/
theorem C2_conversation_state (ext : ChatRequest → Except String String) :
    (∀ s : ChatState, submit_chat ext s =
      (ChatState.mk (s.chat_history ++ [Message.mk Role.user s.user_input,
          Message.mk Role.assistant (call_openai_chat_defaults ext
            (chatSystemMsg :: (s.chat_history ++
              [Message.mk Role.user s.user_input]))).fst]) "",
       [ChatRequest.mk defaultModel
          (chatSystemMsg :: (s.chat_history ++
            [Message.mk Role.user s.user_input]))
          defaultTemperature 1000])) ∧
    (∀ inputs : List String,
      ∃ replies : List String, replies.length = inputs.length ∧
        (runChats ext inputs (ChatState.mk [] "")).fst.chat_history =
          pairsToMessages (inputs.zip replies) ∧
        (runChats ext inputs (ChatState.mk [] "")).fst.chat_history.length =
          2 * inputs.length ∧
        (runChats ext inputs (ChatState.mk [] "")).fst.user_input = "") := by
  refine ⟨submit_chat_eq ext, fun inputs => ?_⟩
  obtain ⟨replies, hlen, hhist, huser⟩ :=
    runChats_transcript ext inputs (ChatState.mk [] "")
  refine ⟨replies, hlen, by simpa using hhist, ?_, ?_⟩
  · rw [hhist]
    simp [pairsToMessages_length, List.length_zip, hlen]
  · rw [huser]
    rcases inputs with _ | _ <;> simp
